import Mathlib

/-!
Verification development for the shop/reservation portal backend.

The storage layer (src/internal/storage/postgres/entities/reservation/reservation.go)
is embedded by modelling the database tables as lists of rows and each SQL
statement by its relational meaning.  Timestamps are modelled as integers
(milliseconds, matching the Go code's use of UnixMilli); the SQL OVERLAPS
predicate between timestamp pairs is embedded following the SQL standard
definition implemented by PostgreSQL.

The HTTP handlers (deleteItem, logIn, me) are embedded as pure functions from a
request model (decoded body, context values, database state) to a result record
holding the HTTP status code, the JSON envelope, the new state and an
observable event trace.
-/

/-- PostgreSQL OVERLAPS on two timestamp pairs.  Each pair is first
normalised so that its smaller endpoint is the start; then the SQL standard
formula is applied: `(S1, E1) OVERLAPS (S2, E2)` holds iff
`(S1 > S2 AND (S1 < E2 OR E1 < E2)) OR (S2 > S1 AND (S2 < E1 OR E2 < E1)) OR S1 = S2`.
For pairs with distinct endpoints this is the half-open intersection test;
a pair with equal endpoints denotes a single instant. -/
def pgOverlaps (s1 e1 s2 e2 : Int) : Bool :=
  let a1 := min s1 e1
  let b1 := max s1 e1
  let a2 := min s2 e2
  let b2 := max s2 e2
  (a2 < a1 && (a1 < b2 || b1 < b2)) || (a1 < a2 && (a2 < b1 || b2 < b1)) || (a1 == a2)

/-- A row of the reservation table:
`{reservation_id, place_id, start, finish, user_id}`. -/
structure ReservationRow where
  reservation_id : Int
  place_id : Int
  start : Int
  finish : Int
  user_id : Int
deriving DecidableEq, Repr

/-- The reservation table together with the next value of the
reservation_id sequence used on insert. -/
structure ReservationDB where
  rows : List ReservationRow
  nextId : Int
deriving DecidableEq, Repr

/-- The check run by InsertReservation before inserting
(qrGetIsPlaceAvailable): does any stored reservation for this place
overlap the requested interval? -/
def isPlaceTaken (db : ReservationDB) (placeID s f : Int) : Bool :=
  db.rows.any (fun r => r.place_id == placeID && pgOverlaps r.start r.finish s f)

/-- InsertReservation: runs the availability check for the place; if some
stored reservation overlaps, fails with the "place is already taken" error
and inserts nothing; otherwise inserts a row with the given place_id,
user_id, start and finish (qrInsertReservation binds $1=place_id, $3=start,
$4=finish, $2=user_id). -/
def insertReservation (db : ReservationDB) (placeID userID s f : Int) :
    Except String ReservationDB :=
  if isPlaceTaken db placeID s f then
    Except.error "storage.postgres.entities.reservation.InsertReservation: place is already taken"
  else
    Except.ok { rows := db.rows ++ [⟨db.nextId, placeID, s, f, userID⟩],
                nextId := db.nextId + 1 }

/-- HasUserReservationInDateRange (qrGetUserReservationInDateRange): does the
user hold any reservation whose interval overlaps the given range? -/
def hasUserReservationInDateRange (db : ReservationDB) (userID s f : Int) : Bool :=
  db.rows.any (fun r => r.user_id == userID && pgOverlaps r.start r.finish s f)

/-- UpdateReservation (qrUpdateReservation): set place_id, start and finish on
every row whose reservation_id matches; no existence check, no overlap check. -/
def updateReservation (db : ReservationDB) (reservationID placeID s f : Int) :
    ReservationDB :=
  { rows := db.rows.map (fun r =>
      if r.reservation_id == reservationID then
        { r with place_id := placeID, start := s, finish := f }
      else r),
    nextId := db.nextId }

/-- DeleteReservation (qrDeleteReservation): remove every row whose
reservation_id matches; no existence check. -/
def deleteReservation (db : ReservationDB) (reservationID : Int) : ReservationDB :=
  { rows := db.rows.filter (fun r => !(r.reservation_id == reservationID)),
    nextId := db.nextId }

/-- The projection returned by qrGetReservationsByUserID: the query selects
only reservation_id, place_id, start and finish. -/
structure UserReservationRow where
  reservation_id : Int
  place_id : Int
  start : Int
  finish : Int
deriving DecidableEq, Repr

/-- Column projection of qrGetReservationsByUserID. -/
def projUserReservation (r : ReservationRow) : UserReservationRow :=
  ⟨r.reservation_id, r.place_id, r.start, r.finish⟩

/-- Descending comparison on the start column, for ORDER BY start DESC. -/
def startDescLe (a b : UserReservationRow) : Bool := b.start ≤ a.start

/-- GetReservationsByUserID (qrGetReservationsByUserID): all rows with the
given user_id, ordered by start descending, projected to the four selected
columns. -/
def getReservationsByUserID (db : ReservationDB) (userID : Int) :
    List UserReservationRow :=
  List.mergeSort
    ((db.rows.filter (fun r => r.user_id == userID)).map projUserReservation)
    startDescLe

/-- C7: as stated over all interval pairs the characterisation fails: the
instant pair (5,5) ends at (and not after) the point where (5,10) begins,
yet PostgreSQL OVERLAPS holds for them (an instant equal to the other
interval's start overlaps it). -/
theorem pgOverlaps_touching_instant_counterexample :
    pgOverlaps 5 5 5 10 = true ∧ ((5 : Int) ≤ 5 ∨ (10 : Int) ≤ 5) := by
  constructor
  · decide
  · decide

/-- C7 (amended): for proper intervals, with each pair's start strictly
before its finish, the OVERLAPS predicate used by qrGetActualPlaces,
qrGetIsPlaceAvailable and qrGetUserReservationInDateRange holds iff neither
interval ends at or before the other begins; in particular intervals that
merely touch at a boundary do not overlap. -/
theorem pgOverlaps_iff_of_proper (s1 e1 s2 e2 : Int)
    (h1 : s1 < e1) (h2 : s2 < e2) :
    pgOverlaps s1 e1 s2 e2 = true ↔ ¬ (e1 ≤ s2 ∨ e2 ≤ s1) := by
  simp only [pgOverlaps, min_eq_left h1.le, max_eq_right h1.le,
    min_eq_left h2.le, max_eq_right h2.le, Bool.or_eq_true, Bool.and_eq_true,
    decide_eq_true_eq, beq_iff_eq]
  constructor
  · rintro ((⟨hlt, (h | h)⟩ | ⟨hlt, (h | h)⟩) | heq) <;> push_neg <;> omega
  · intro h
    push_neg at h
    omega

/-- Witness for the amended C7 theorem at a concrete proper pair. -/
theorem pgOverlaps_iff_of_proper_witness :
    (0 : Int) < 10 ∧ (5 : Int) < 15 ∧
      (pgOverlaps 0 10 5 15 = true ↔ ¬ ((10 : Int) ≤ 5 ∨ (15 : Int) ≤ 0)) :=
  ⟨by decide, by decide, pgOverlaps_iff_of_proper 0 10 5 15 (by decide) (by decide)⟩

/-- A concrete reservation table used in witnesses: one reservation of
place 7 by user 3 over [0, 10). -/
def dbEx : ReservationDB :=
  { rows := [⟨1, 7, 0, 10, 3⟩], nextId := 2 }

/-- C1: InsertReservation fails with the "place is already taken" error, and
inserts nothing, exactly when some stored reservation for the requested
place overlaps the requested interval; otherwise it succeeds and the new
state is the old table extended with one row carrying the requested
place_id, user_id, start and finish. -/
theorem insertReservation_spec (db : ReservationDB) (placeID userID s f : Int) :
    ((∃ r ∈ db.rows, r.place_id = placeID ∧ pgOverlaps r.start r.finish s f = true) →
      insertReservation db placeID userID s f =
        Except.error
          "storage.postgres.entities.reservation.InsertReservation: place is already taken") ∧
    ((∀ r ∈ db.rows, r.place_id = placeID → pgOverlaps r.start r.finish s f = false) →
      insertReservation db placeID userID s f =
        Except.ok { rows := db.rows ++ [⟨db.nextId, placeID, s, f, userID⟩],
                    nextId := db.nextId + 1 }) := by
  constructor
  · rintro ⟨r, hr, hpid, hov⟩
    have htaken : isPlaceTaken db placeID s f = true := by
      refine List.any_eq_true.2 ⟨r, hr, ?_⟩
      simp [hpid, hov]
    simp [insertReservation, htaken]
  · intro h
    have hfree : isPlaceTaken db placeID s f = false := by
      refine List.any_eq_false.2 ?_
      intro r hr
      by_cases hpid : r.place_id = placeID
      · simp [hpid, h r hr hpid]
      · simp [hpid]
    simp [insertReservation, hfree]

/-- Witness for C1 at a concrete table: inserting into place 7 over [5, 15)
collides with the stored reservation [0, 10) and fails; inserting into the
disjoint interval [10, 20) succeeds and appends the new row. -/
theorem insertReservation_spec_witness :
    insertReservation dbEx 7 4 5 15 =
      Except.error
        "storage.postgres.entities.reservation.InsertReservation: place is already taken" ∧
    insertReservation dbEx 7 4 10 20 =
      Except.ok { rows := [⟨1, 7, 0, 10, 3⟩, ⟨2, 7, 10, 20, 4⟩], nextId := 3 } := by
  constructor
  · exact (insertReservation_spec dbEx 7 4 5 15).1
      ⟨⟨1, 7, 0, 10, 3⟩, by decide, by decide, by decide⟩
  · refine (insertReservation_spec dbEx 7 4 10 20).2 ?_
    intro r hr hpid
    fin_cases hr
    decide

/-- Transitivity of the descending start comparison. -/
theorem startDescLe_trans :
    ∀ (a b c : UserReservationRow),
      startDescLe a b = true → startDescLe b c = true → startDescLe a c = true := by
  intro a b c hab hbc
  simp only [startDescLe, decide_eq_true_eq] at *
  omega

/-- Totality of the descending start comparison. -/
theorem startDescLe_total :
    ∀ (a b : UserReservationRow), (startDescLe a b || startDescLe b a) = true := by
  intro a b
  simp only [startDescLe, Bool.or_eq_true, decide_eq_true_eq]
  omega

/-- C8: GetReservationsByUserID returns exactly the projections of the stored
rows whose user_id equals the argument (as a multiset: a permutation of
them, and membership characterised), and the returned list is sorted by
start descending. -/
theorem getReservationsByUserID_spec (db : ReservationDB) (userID : Int) :
    (getReservationsByUserID db userID).Perm
        ((db.rows.filter (fun r => r.user_id == userID)).map projUserReservation) ∧
    (∀ x : UserReservationRow,
      x ∈ getReservationsByUserID db userID ↔
        ∃ r ∈ db.rows, r.user_id = userID ∧ projUserReservation r = x) ∧
    List.Sorted (fun a b : UserReservationRow => b.start ≤ a.start)
      (getReservationsByUserID db userID) := by
  refine ⟨List.mergeSort_perm _ _, ?_, ?_⟩
  · intro x
    simp only [getReservationsByUserID]
    rw [(List.mergeSort_perm _ _).mem_iff]
    simp only [List.mem_map, List.mem_filter, beq_iff_eq]
    constructor
    · rintro ⟨r, ⟨hr, hu⟩, hx⟩
      exact ⟨r, hr, hu, hx⟩
    · rintro ⟨r, hr, hu, hx⟩
      exact ⟨r, ⟨hr, hu⟩, hx⟩
  · have h := List.sorted_mergeSort startDescLe_trans startDescLe_total
      ((db.rows.filter (fun r => r.user_id == userID)).map projUserReservation)
    exact h.imp (fun hab => by simpa [startDescLe] using hab)

/-- Counting a row untouched by the update map: rewriting the rows that
carry the updated reservation_id does not change the multiplicity of any
row with a different reservation_id. -/
theorem count_map_setRow (l : List ReservationRow) (reservationID placeID s f : Int)
    (r : ReservationRow) (hid : r.reservation_id ≠ reservationID) :
    (l.map (fun x =>
        if x.reservation_id == reservationID then
          { x with place_id := placeID, start := s, finish := f }
        else x)).count r = l.count r := by
  induction l with
  | nil => simp
  | cons a l ih =>
    by_cases ha : a.reservation_id = reservationID
    · have hhead : (if a.reservation_id == reservationID then
          ({ a with place_id := placeID, start := s, finish := f } : ReservationRow)
        else a) = { a with place_id := placeID, start := s, finish := f } := by
        simp [ha]
      have hne : ({ a with place_id := placeID, start := s, finish := f } :
          ReservationRow) ≠ r := by
        intro hc
        apply hid
        rw [← hc]
        exact ha
      have har : a ≠ r := fun hc => hid (hc ▸ ha)
      rw [List.map_cons, hhead, List.count_cons, List.count_cons, ih,
        if_neg (by simp [hne]), if_neg (by simp [har])]
    · have hhead : (if a.reservation_id == reservationID then
          ({ a with place_id := placeID, start := s, finish := f } : ReservationRow)
        else a) = a := by
        simp [ha]
      rw [List.map_cons, hhead, List.count_cons, List.count_cons, ih]

/-- C9: UpdateReservation rewrites place_id, start and finish on every row
with the given reservation_id and leaves every other row unchanged with its
multiplicity; DeleteReservation removes exactly the rows with the given
reservation_id; both are unconditional: no overlap check is involved (the
statement holds for every interval), and when no row carries the id both
leave the table exactly as it was. -/
theorem updateDeleteReservation_spec (db : ReservationDB)
    (reservationID placeID s f : Int) :
    (∀ r ∈ db.rows, r.reservation_id = reservationID →
      ({ r with place_id := placeID, start := s, finish := f } : ReservationRow)
        ∈ (updateReservation db reservationID placeID s f).rows) ∧
    (∀ r : ReservationRow, r.reservation_id ≠ reservationID →
      (updateReservation db reservationID placeID s f).rows.count r =
        db.rows.count r) ∧
    ((∀ r ∈ db.rows, r.reservation_id ≠ reservationID) →
      updateReservation db reservationID placeID s f = db) ∧
    (∀ r : ReservationRow,
      (deleteReservation db reservationID).rows.count r =
        if r.reservation_id = reservationID then 0 else db.rows.count r) ∧
    ((∀ r ∈ db.rows, r.reservation_id ≠ reservationID) →
      deleteReservation db reservationID = db) := by
  refine ⟨?_, ?_, ?_, ?_, ?_⟩
  · intro r hr hid
    refine List.mem_map.2 ⟨r, hr, ?_⟩
    simp [hid]
  · intro r hid
    exact count_map_setRow db.rows reservationID placeID s f r hid
  · intro h
    have hrows : db.rows.map (fun r =>
        if r.reservation_id == reservationID then
          { r with place_id := placeID, start := s, finish := f }
        else r) = db.rows := by
      conv_rhs => rw [← List.map_id db.rows]
      apply List.map_congr_left
      intro r hr
      simp [h r hr]
    unfold updateReservation
    rw [hrows]
  · intro r
    by_cases hid : r.reservation_id = reservationID
    · rw [if_pos hid]
      refine List.count_eq_zero.2 ?_
      intro hmem
      have := (List.mem_filter.1 hmem).2
      simp [hid] at this
    · rw [if_neg hid]
      apply List.count_filter
      simp [hid]
  · intro h
    have : db.rows.filter (fun r => !(r.reservation_id == reservationID)) = db.rows := by
      apply List.filter_eq_self.2
      intro r hr
      simp [h r hr]
    simp [deleteReservation, this]

/-- Witness for C9 at the concrete table: updating reservation 1 moves it to
place 9 over [20, 30) even though no overlap check takes place, deleting
reservation 1 empties the table, and both operations on an id that does not
exist leave the table untouched. -/
theorem updateDeleteReservation_spec_witness :
    ({ reservation_id := 1, place_id := 9, start := 20, finish := 30,
       user_id := 3 } : ReservationRow) ∈ (updateReservation dbEx 1 9 20 30).rows ∧
    (deleteReservation dbEx 1).rows.count ⟨1, 7, 0, 10, 3⟩ = 0 ∧
    updateReservation dbEx 5 9 20 30 = dbEx ∧
    deleteReservation dbEx 5 = dbEx := by
  have h1 := (updateDeleteReservation_spec dbEx 1 9 20 30).1
    ⟨1, 7, 0, 10, 3⟩ (by decide) (by decide)
  have h2 := (updateDeleteReservation_spec dbEx 1 9 20 30).2.2.2.1 ⟨1, 7, 0, 10, 3⟩
  have h3 := (updateDeleteReservation_spec dbEx 5 9 20 30).2.2.1
    (by intro r hr; fin_cases hr; decide)
  have h4 := (updateDeleteReservation_spec dbEx 5 9 20 30).2.2.2.2
    (by intro r hr; fin_cases hr; decide)
  refine ⟨h1, ?_, h3, h4⟩
  simpa using h2

/-- A row of the place table, restricted to the columns qrGetActualPlaces
selects; phone is nullable (COALESCE(phone, '') in the query). -/
structure PlaceRow where
  place_id : Int
  name : String
  phone : Option String
deriving DecidableEq, Repr

/-- UnixMilli of the zero time value, TIMESTAMP 0001-01-01 00:00:00: the
sentinel stored in the start and finish columns of available rows by
qrGetActualPlaces, as the Go code converts it with UnixMilli. -/
def zeroTimeMillis : Int := -62135596800000

/-- One output row of GetActualPlaces, matching the Go ActualPlace struct
fields filled by the query (start and finish already in UnixMilli). -/
structure ActualPlace where
  place_id : Int
  name : String
  phone : String
  is_available : Bool
  user_id : Int
  start : Int
  finish : Int
deriving DecidableEq, Repr

/-- SQL COALESCE(phone, ''). -/
def coalesceEmpty : Option String → String
  | some s => s
  | none => ""

/-- The projection used for available places: true AS is_available, 0 AS
user_id, and the zero-time sentinel for start and finish. -/
def availRow (p : PlaceRow) : ActualPlace :=
  ⟨p.place_id, p.name, coalesceEmpty p.phone, true, 0, zeroTimeMillis, zeroTimeMillis⟩

/-- The projection used for occupied places: false AS is_available and the
overlapping reservation's user_id, start and finish. -/
def busyRow (p : PlaceRow) (r : ReservationRow) : ActualPlace :=
  ⟨p.place_id, p.name, coalesceEmpty p.phone, false, r.user_id, r.start, r.finish⟩

/-- Modelled from the spec: the place_and_reservation relation read by
qrGetActualPlaces is not defined under src/ (it lives in the database
schema); per the spec's availability-query description it pairs each place
with each reservation of that place, carrying the place columns and the
reservation's user_id, start and finish. -/
def placeAndReservation (places : List PlaceRow) (resv : List ReservationRow) :
    List (PlaceRow × ReservationRow) :=
  places.flatMap (fun p =>
    (resv.filter (fun r => r.place_id == p.place_id)).map (fun r => (p, r)))

/-- The WHERE clause of qrGetActualPlaces: join rows whose reservation
interval overlaps the query interval ($1, $2). -/
def overlappingPairs (places : List PlaceRow) (resv : List ReservationRow)
    (qs qf : Int) : List (PlaceRow × ReservationRow) :=
  (placeAndReservation places resv).filter
    (fun pr => pgOverlaps qs qf pr.2.start pr.2.finish)

/-- Ascending comparison on the place_id column, for ORDER BY place_id. -/
def placeIdLe (a b : ActualPlace) : Bool := a.place_id ≤ b.place_id

/-- GetActualPlaces (qrGetActualPlaces): the available projection of every
place, EXCEPT the available projection of places having an overlapping
reservation, UNION the occupied projection of every overlapping join row
(both set operators deduplicate), ordered by place_id. -/
def getActualPlaces (places : List PlaceRow) (resv : List ReservationRow)
    (qs qf : Int) : List ActualPlace :=
  let busyAvailProj :=
    ((overlappingPairs places resv qs qf).map (fun pr => availRow pr.1)).dedup
  let availPart :=
    ((places.map availRow).dedup).filter (fun a => !(busyAvailProj.contains a))
  let busyPart :=
    ((overlappingPairs places resv qs qf).map (fun pr => busyRow pr.1 pr.2)).dedup
  List.mergeSort ((availPart ++ busyPart).dedup) placeIdLe

/-- Transitivity of the ascending place_id comparison. -/
theorem placeIdLe_trans :
    ∀ (a b c : ActualPlace),
      placeIdLe a b = true → placeIdLe b c = true → placeIdLe a c = true := by
  intro a b c hab hbc
  simp only [placeIdLe, decide_eq_true_eq] at *
  omega

/-- Totality of the ascending place_id comparison. -/
theorem placeIdLe_total :
    ∀ (a b : ActualPlace), (placeIdLe a b || placeIdLe b a) = true := by
  intro a b
  simp only [placeIdLe, Bool.or_eq_true, decide_eq_true_eq]
  omega

/-- Membership in the overlapping join rows. -/
theorem mem_overlappingPairs (places : List PlaceRow) (resv : List ReservationRow)
    (qs qf : Int) (p : PlaceRow) (r : ReservationRow) :
    (p, r) ∈ overlappingPairs places resv qs qf ↔
      p ∈ places ∧ r ∈ resv ∧ r.place_id = p.place_id ∧
        pgOverlaps qs qf r.start r.finish = true := by
  simp only [overlappingPairs, placeAndReservation, List.mem_filter,
    List.mem_flatMap, List.mem_map, List.mem_filter, beq_iff_eq]
  constructor
  · rintro ⟨⟨p', hp', r', ⟨hr', hpid⟩, heq⟩, hov⟩
    obtain ⟨h1, h2⟩ := Prod.mk.injEq .. ▸ heq
    subst h1
    subst h2
    exact ⟨hp', hr', hpid, hov⟩
  · rintro ⟨hp, hr, hpid, hov⟩
    exact ⟨⟨p, hp, r, ⟨hr, hpid⟩, rfl⟩, hov⟩

/-- Membership in the result of GetActualPlaces: either an available
projection of a place no overlapping join row shares (the EXCEPT branch)
or an occupied projection of an overlapping join row (the UNION branch). -/
theorem mem_getActualPlaces (places : List PlaceRow) (resv : List ReservationRow)
    (qs qf : Int) (a : ActualPlace) :
    a ∈ getActualPlaces places resv qs qf ↔
      ((∃ p ∈ places, availRow p = a) ∧
        ¬ (∃ q ∈ overlappingPairs places resv qs qf, availRow q.1 = a)) ∨
      (∃ q ∈ overlappingPairs places resv qs qf, busyRow q.1 q.2 = a) := by
  simp only [getActualPlaces]
  rw [(List.mergeSort_perm _ _).mem_iff]
  simp only [List.mem_dedup, List.mem_append, List.mem_filter, List.mem_map,
    List.elem_eq_mem, Bool.not_eq_eq_eq_not, Bool.not_true, decide_eq_false_iff_not,
    List.mem_dedup, List.mem_map]

/-- The result of GetActualPlaces holds no duplicate rows. -/
theorem nodup_getActualPlaces (places : List PlaceRow) (resv : List ReservationRow)
    (qs qf : Int) : (getActualPlaces places resv qs qf).Nodup := by
  simp only [getActualPlaces]
  exact (List.mergeSort_perm _ _).symm.nodup (List.nodup_dedup _)

/-- C3: under the place-table primary key (no two place rows share a
place_id), GetActualPlaces returns a list sorted by place_id ascending in
which every place all of whose reservations are disjoint from the query
interval appears exactly once, as its available projection with user_id 0
and the zero-time sentinel in start and finish, and every place with
exactly one reservation overlapping the query interval appears exactly
once, as its occupied projection carrying that reservation's user_id,
start and finish. -/
theorem getActualPlaces_spec (places : List PlaceRow) (resv : List ReservationRow)
    (qs qf : Int) (hpk : (places.map PlaceRow.place_id).Nodup) :
    List.Sorted (fun a b : ActualPlace => a.place_id ≤ b.place_id)
      (getActualPlaces places resv qs qf) ∧
    (∀ p ∈ places,
      (∀ r ∈ resv, r.place_id = p.place_id →
          pgOverlaps qs qf r.start r.finish = false) →
        (getActualPlaces places resv qs qf).count (availRow p) = 1 ∧
        ∀ a ∈ getActualPlaces places resv qs qf,
          a.place_id = p.place_id → a = availRow p) ∧
    (∀ p ∈ places, ∀ r ∈ resv, r.place_id = p.place_id →
      pgOverlaps qs qf r.start r.finish = true →
      (∀ r' ∈ resv, r'.place_id = p.place_id →
        pgOverlaps qs qf r'.start r'.finish = true → r' = r) →
        (getActualPlaces places resv qs qf).count (busyRow p r) = 1 ∧
        ∀ a ∈ getActualPlaces places resv qs qf,
          a.place_id = p.place_id → a = busyRow p r) := by
  have hinj : ∀ ⦃x : PlaceRow⦄, x ∈ places → ∀ ⦃y : PlaceRow⦄, y ∈ places →
      x.place_id = y.place_id → x = y := List.inj_on_of_nodup_map hpk
  refine ⟨?_, ?_, ?_⟩
  · simp only [getActualPlaces]
    exact (List.sorted_mergeSort placeIdLe_trans placeIdLe_total _).imp
      (fun hab => by simpa [placeIdLe] using hab)
  · intro p hp hdisj
    have hmem : availRow p ∈ getActualPlaces places resv qs qf := by
      rw [mem_getActualPlaces]
      refine Or.inl ⟨⟨p, hp, rfl⟩, ?_⟩
      rintro ⟨⟨p', r'⟩, hq, hqa⟩
      rw [mem_overlappingPairs] at hq
      obtain ⟨hp', hr', hpid', hov'⟩ := hq
      have hpid : p'.place_id = p.place_id := congrArg ActualPlace.place_id hqa
      have hpp : p' = p := hinj hp' hp hpid
      subst hpp
      rw [hdisj r' hr' hpid'] at hov'
      exact Bool.false_ne_true hov'
    refine ⟨List.count_eq_one_of_mem (nodup_getActualPlaces _ _ _ _) hmem, ?_⟩
    intro a ha hapid
    rw [mem_getActualPlaces] at ha
    rcases ha with ⟨⟨p'', hp'', hpa⟩, -⟩ | ⟨⟨p'', r''⟩, hq, hqa⟩
    · have hpid : p''.place_id = p.place_id := by
        have h1 : p''.place_id = a.place_id := congrArg ActualPlace.place_id hpa
        rw [h1, hapid]
      have hpp : p'' = p := hinj hp'' hp hpid
      rw [← hpa, hpp]
    · rw [mem_overlappingPairs] at hq
      obtain ⟨hp'', hr'', hpid'', hov''⟩ := hq
      have hpid : p''.place_id = p.place_id := by
        have h1 : p''.place_id = a.place_id := congrArg ActualPlace.place_id hqa
        rw [h1, hapid]
      have hpp : p'' = p := hinj hp'' hp hpid
      subst hpp
      rw [hdisj r'' hr'' hpid''] at hov''
      exact absurd hov'' Bool.false_ne_true
  · intro p hp r hr hpidr hov huniq
    have hpair : (p, r) ∈ overlappingPairs places resv qs qf :=
      (mem_overlappingPairs places resv qs qf p r).2 ⟨hp, hr, hpidr, hov⟩
    have hmem : busyRow p r ∈ getActualPlaces places resv qs qf := by
      rw [mem_getActualPlaces]
      exact Or.inr ⟨(p, r), hpair, rfl⟩
    refine ⟨List.count_eq_one_of_mem (nodup_getActualPlaces _ _ _ _) hmem, ?_⟩
    intro a ha hapid
    rw [mem_getActualPlaces] at ha
    rcases ha with ⟨⟨p'', hp'', hpa⟩, hnone⟩ | ⟨⟨p'', r''⟩, hq, hqa⟩
    · have hpid : p''.place_id = p.place_id := by
        have h1 : p''.place_id = a.place_id := congrArg ActualPlace.place_id hpa
        rw [h1, hapid]
      have hpp : p'' = p := hinj hp'' hp hpid
      refine absurd ⟨(p, r), hpair, ?_⟩ hnone
      rw [← hpa, hpp]
    · rw [mem_overlappingPairs] at hq
      obtain ⟨hp'', hr'', hpid'', hov''⟩ := hq
      have hpid : p''.place_id = p.place_id := by
        have h1 : p''.place_id = a.place_id := congrArg ActualPlace.place_id hqa
        rw [h1, hapid]
      have hpp : p'' = p := hinj hp'' hp hpid
      subst hpp
      have hrr : r'' = r := huniq r'' hr'' hpid'' hov''
      rw [← hqa, hrr]

/-- A concrete place table used in witnesses: places 1 and 2. -/
def placesEx : List PlaceRow := [⟨1, "A", some "111"⟩, ⟨2, "B", none⟩]

/-- A concrete reservation table used in the C3 witness: place 1 reserved by
user 3 over [0, 10). -/
def resvEx : List ReservationRow := [⟨1, 1, 0, 10, 3⟩]

/-- Witness for C3 at the concrete tables with query interval (5, 15):
place 2 appears once as available and place 1 appears once as occupied by
user 3 over [0, 10). -/
theorem getActualPlaces_spec_witness :
    (getActualPlaces placesEx resvEx 5 15).count (availRow ⟨2, "B", none⟩) = 1 ∧
    (getActualPlaces placesEx resvEx 5 15).count
      (busyRow ⟨1, "A", some "111"⟩ ⟨1, 1, 0, 10, 3⟩) = 1 := by
  have h := getActualPlaces_spec placesEx resvEx 5 15 (by decide)
  refine ⟨?_, ?_⟩
  · exact (h.2.1 ⟨2, "B", none⟩ (by decide) (by decide)).1
  · exact (h.2.2 ⟨1, "A", some "111"⟩ (by decide) ⟨1, 1, 0, 10, 3⟩ (by decide)
      (by decide) (by decide) (by decide)).1

/-- Modelled from the spec: the uniform response envelope of
portal/internal/lib/api/response (not under src/), a status of OK or Error
together with an optional error message. -/
structure RespEnvelope where
  status : String
  error : Option String
deriving DecidableEq, Repr

/-- resp.OK(). -/
def respOK : RespEnvelope := ⟨"OK", none⟩

/-- resp.Error(msg). -/
def respError (msg : String) : RespEnvelope := ⟨"Error", some msg⟩

/-- Modelled from the spec: resp.ValidationError renders the failed
validation as an error envelope; represented by its message. -/
def respValidationError (msg : String) : RespEnvelope := respError msg

/-- Outcome of render.DecodeJSON on a request body: io.EOF for an empty
body, another decode failure, or a decoded value. -/
inductive BodyDecode (α : Type) where
  | emptyBody : BodyDecode α
  | malformed : BodyDecode α
  | decoded (a : α) : BodyDecode α
deriving DecidableEq, Repr

/-- Modelled from the spec: the ShopEditor role code of the roles package
(not under src/); an authorized, nonzero role code. -/
def ShopEditor : Int := 2

/-- Modelled from the spec: the SuperAdmin role code of the roles package
(not under src/); an authorized, nonzero role code distinct from ShopEditor. -/
def SuperAdmin : Int := 3

/-- The allowed roles of the deleteItem handler. -/
def allowedRoles : List Int := [ShopEditor, SuperAdmin]

/-- The deleteItem request body: item_id with a required tag. -/
structure DeleteItemRequest where
  item_id : Int
deriving DecidableEq, Repr

/-- The required validation on the int field item_id: a zero value fails. -/
def deleteItemValid (req : DeleteItemRequest) : Bool := !(req.item_id == 0)

/-- Modelled from the spec: a row of the shop item table; shop.Item.DeleteItem
is not under src/ — per the spec it removes the shop item with the given
item_id, failing only on a database error. -/
structure ShopItem where
  item_id : Int
deriving DecidableEq, Repr

/-- Observable outcome of the deleteItem handler: HTTP status code, JSON
envelope, resulting item table, and whether DeleteItem was invoked. -/
structure DeleteItemResult where
  code : Nat
  body : RespEnvelope
  items : List ShopItem
  deleteInvoked : Bool
deriving DecidableEq, Repr

/-- The deleteItem handler: reads the role from the request context, rejects
a zero role with 500 and an unauthorized role with 403 before touching the
body; then decodes (400 on empty or malformed body), validates (400), and
finally calls DeleteItem (422 on database error, else 200 with the OK
envelope). dbErr models the external database failing the delete. -/
def deleteItemHandler (role : Int) (body : BodyDecode DeleteItemRequest)
    (dbErr : Bool) (items : List ShopItem) : DeleteItemResult :=
  if role == 0 then
    ⟨500, respError "no user role in token", items, false⟩
  else if !(allowedRoles.contains role) then
    ⟨403, respError "access was denied", items, false⟩
  else
    match body with
    | .emptyBody => ⟨400, respError "empty request", items, false⟩
    | .malformed => ⟨400, respError "failed to decode request", items, false⟩
    | .decoded req =>
      if !(deleteItemValid req) then
        ⟨400, respValidationError "field ItemID is a required field", items, false⟩
      else if dbErr then
        ⟨422, respError "failed to delete item from shop", items, true⟩
      else
        ⟨200, respOK, items.filter (fun i => !(i.item_id == req.item_id)), true⟩

/-- The logIn request body: login and password, both required. -/
structure LoginRequest where
  login : String
  password : String
deriving DecidableEq, Repr

/-- The required validation on the two string fields: an empty value fails. -/
def loginValid (req : LoginRequest) : Bool :=
  !(req.login == "") && !(req.password == "")

/-- Modelled from the spec: a stored credential record checked by UserAuth. -/
structure UserCred where
  login : String
  password : String
deriving DecidableEq, Repr

/-- Modelled from the spec: entities.User.UserAuth is not under src/; per the
spec it validates login and password against the stored credentials and on
failure yields a generic error that does not distinguish a missing user
from a bad password.  Returns the status and the error text the handler
surfaces via err.Error(). -/
def userAuth (users : List UserCred) (login password : String) : Bool × String :=
  if users.any (fun u => u.login == login && u.password == password) then
    (true, "")
  else
    (false, "invalid login or password")

/-- Modelled from the spec: jwt.New issues an opaque bearer token through the
external token library; represented as a fixed non-empty opaque string. -/
def jwtNew : String := "opaque-bearer-token"

/-- Observable side effects of the logIn handler, in order: the fmt.Printf of
the password to standard output and the UserAuth invocation. -/
inductive LoginEvent where
  | printStdout (s : String)
  | callUserAuth (login password : String)
deriving DecidableEq, Repr

/-- Observable outcome of the logIn handler: HTTP status code, JSON envelope,
issued token when any, and the ordered event trace. -/
structure LoginResult where
  code : Nat
  body : RespEnvelope
  token : Option String
  events : List LoginEvent
deriving DecidableEq, Repr

/-- The logIn handler: decodes (400 on empty or malformed body), validates
(400), then prints the plaintext password to standard output, calls
UserAuth, and answers 400 with resp.Error(err.Error()) on a failed check or
200 with the OK envelope and the issued token on success. -/
def logInHandler (users : List UserCred) (body : BodyDecode LoginRequest) :
    LoginResult :=
  match body with
  | .emptyBody => ⟨400, respError "empty request", none, []⟩
  | .malformed => ⟨400, respError "failed to decode request", none, []⟩
  | .decoded req =>
    if !(loginValid req) then
      ⟨400, respValidationError "validation failed", none, []⟩
    else
      let events := [LoginEvent.printStdout req.password,
                     LoginEvent.callUserAuth req.login req.password]
      let res := userAuth users req.login req.password
      if !res.1 then
        ⟨400, respError res.2, none, events⟩
      else
        ⟨200, respOK, some jwtNew, events⟩

/-- The three request-context values the me handler reads; none means the
upstream middleware did not set that value. -/
structure MeContext where
  claims : Option (List (String × Int))
  credential : Option String
  scope : Option Int
deriving DecidableEq, Repr

/-- The user echoed back by the me handler. -/
structure MeUser where
  user_id : Int
  username : String
  role : Int
deriving DecidableEq, Repr

/-- Observable outcome of the me handler: either a runtime panic from a
failed dynamic type assertion on a missing context value, or an HTTP
response. -/
inductive MeResult where
  | panicked : MeResult
  | response (code : Nat) (body : RespEnvelope) (user : Option MeUser) : MeResult
deriving DecidableEq, Repr

/-- Go map lookup on the claims map. -/
def lookupClaim : List (String × Int) → String → Option Int
  | [], _ => none
  | (k, v) :: rest, key => if k == key then some v else lookupClaim rest key

/-- The me handler: asserts the claims map out of the context (panicking when
absent), answers 500 when the user_id key is missing; asserts the username
(panicking when absent), answers 500 when it is empty; asserts the role
(panicking when absent), answers 500 when it is zero; otherwise echoes the
three values in an OK envelope. -/
def meHandler (ctx : MeContext) : MeResult :=
  match ctx.claims with
  | none => MeResult.panicked
  | some claims =>
    match lookupClaim claims "user_id" with
    | none => MeResult.response 500 (respError "no user id in token claims") none
    | some userID =>
      match ctx.credential with
      | none => MeResult.panicked
      | some username =>
        if username == "" then
          MeResult.response 500 (respError "no username in token") none
        else
          match ctx.scope with
          | none => MeResult.panicked
          | some role =>
            if role == 0 then
              MeResult.response 500 (respError "no user role in token") none
            else
              MeResult.response 200 respOK (some ⟨userID, username, role⟩)

/-- On a failed check UserAuth yields the fixed generic message. -/
theorem userAuth_fail_msg (users : List UserCred) (login password : String)
    (h : (userAuth users login password).1 = false) :
    userAuth users login password = (false, "invalid login or password") := by
  by_cases hc : (users.any fun u => u.login == login && u.password == password) = true
  · simp [userAuth, hc] at h
  · simp only [Bool.not_eq_true] at hc
    simp [userAuth, hc]

/-- C2: for a decoded, validated login request, a failed credential check
yields 400 with the fixed generic error message of the credential checker
(surfaced via err.Error()) and no token; the response body of a failed
check is identical across all failing requests and credential stores, so
a missing user and a bad password are indistinguishable; with correct
credentials the handler answers 200 carrying the non-empty issued token. -/
theorem logInHandler_spec (users : List UserCred) (req : LoginRequest)
    (hval : loginValid req = true) :
    ((userAuth users req.login req.password).1 = false →
      (logInHandler users (BodyDecode.decoded req)).code = 400 ∧
      (logInHandler users (BodyDecode.decoded req)).body =
        respError "invalid login or password" ∧
      (logInHandler users (BodyDecode.decoded req)).token = none) ∧
    ((userAuth users req.login req.password).1 = true →
      (logInHandler users (BodyDecode.decoded req)).code = 200 ∧
      (logInHandler users (BodyDecode.decoded req)).token = some jwtNew ∧
      jwtNew ≠ "") ∧
    (∀ (users2 : List UserCred) (req2 : LoginRequest), loginValid req2 = true →
      (userAuth users req.login req.password).1 = false →
      (userAuth users2 req2.login req2.password).1 = false →
      (logInHandler users (BodyDecode.decoded req)).body =
        (logInHandler users2 (BodyDecode.decoded req2)).body) := by
  refine ⟨?_, ?_, ?_⟩
  · intro hfail
    have hmsg := userAuth_fail_msg users req.login req.password hfail
    refine ⟨?_, ?_, ?_⟩ <;> simp [logInHandler, hval, hmsg]
  · intro hsucc
    refine ⟨?_, ?_, ?_⟩
    · simp [logInHandler, hval, hsucc]
    · simp [logInHandler, hval, hsucc]
    · decide
  · intro users2 req2 hval2 hfail hfail2
    have h1 := userAuth_fail_msg users req.login req.password hfail
    have h2 := userAuth_fail_msg users2 req2.login req2.password hfail2
    simp [logInHandler, hval, hval2, h1, h2]

/-- A concrete credential store used in witnesses. -/
def usersEx : List UserCred := [⟨"alice", "sesame"⟩]

/-- Witness for C2 at a concrete store: a wrong password yields 400 and the
right one yields 200 with the issued token. -/
theorem logInHandler_spec_witness :
    (logInHandler usersEx (BodyDecode.decoded ⟨"alice", "wrong"⟩)).code = 400 ∧
    (logInHandler usersEx (BodyDecode.decoded ⟨"alice", "sesame"⟩)).code = 200 ∧
    (logInHandler usersEx (BodyDecode.decoded ⟨"alice", "sesame"⟩)).token =
      some jwtNew := by
  have h1 := (logInHandler_spec usersEx ⟨"alice", "wrong"⟩ (by decide)).1 (by decide)
  have h2 := (logInHandler_spec usersEx ⟨"alice", "sesame"⟩ (by decide)).2.1 (by decide)
  exact ⟨h1.1, h2.1, h2.2.1⟩

/-- C10: for every login request that decodes and validates, the handler's
event trace is exactly the print of the plaintext password to standard
output followed by the credential check, whatever the check's outcome. -/
theorem logInHandler_prints_password (users : List UserCred) (req : LoginRequest)
    (hval : loginValid req = true) :
    (logInHandler users (BodyDecode.decoded req)).events =
      [LoginEvent.printStdout req.password,
       LoginEvent.callUserAuth req.login req.password] := by
  by_cases hs : (userAuth users req.login req.password).1 = true
  · simp [logInHandler, hval, hs]
  · simp only [Bool.not_eq_true] at hs
    simp [logInHandler, hval, hs]

/-- Witness for C10 at a concrete request. -/
theorem logInHandler_prints_password_witness :
    (logInHandler usersEx (BodyDecode.decoded ⟨"alice", "hunter2"⟩)).events =
      [LoginEvent.printStdout "hunter2",
       LoginEvent.callUserAuth "alice" "hunter2"] :=
  logInHandler_prints_password usersEx ⟨"alice", "hunter2"⟩ (by decide)

/-- C5 counterexample: a zero role is not an authorized role, yet the
handler answers 500 rather than the 403 the claim promises for every
unauthorized role. -/
theorem deleteItem_role_zero_counterexample :
    ¬ (0 : Int) ∈ allowedRoles ∧
    (deleteItemHandler 0 (BodyDecode.decoded ⟨1⟩) false [⟨1⟩]).code = 500 ∧
    (deleteItemHandler 0 (BodyDecode.decoded ⟨1⟩) false [⟨1⟩]).code ≠ 403 := by
  decide

/-- C5 (amended): an authorized role with a valid request deletes the
targeted item and receives the 200/OK envelope (422 when the delete itself
fails, with the table unchanged); a zero role receives 500 and no deletion
occurs; every other unauthorized role receives 403 and no deletion occurs. -/
theorem deleteItemHandler_spec (role : Int) (req : DeleteItemRequest)
    (dbErr : Bool) (items : List ShopItem) :
    (role ∈ allowedRoles → deleteItemValid req = true →
      (dbErr = false →
        deleteItemHandler role (BodyDecode.decoded req) dbErr items =
          ⟨200, respOK, items.filter (fun i => !(i.item_id == req.item_id)), true⟩ ∧
        ∀ i ∈ (deleteItemHandler role (BodyDecode.decoded req) dbErr items).items,
          i.item_id ≠ req.item_id) ∧
      (dbErr = true →
        deleteItemHandler role (BodyDecode.decoded req) dbErr items =
          ⟨422, respError "failed to delete item from shop", items, true⟩)) ∧
    (role = 0 → ∀ body : BodyDecode DeleteItemRequest,
      deleteItemHandler role body dbErr items =
        ⟨500, respError "no user role in token", items, false⟩) ∧
    (role ≠ 0 → ¬ role ∈ allowedRoles → ∀ body : BodyDecode DeleteItemRequest,
      deleteItemHandler role body dbErr items =
        ⟨403, respError "access was denied", items, false⟩) := by
  refine ⟨?_, ?_, ?_⟩
  · intro hrole hval
    have hor : role = ShopEditor ∨ role = SuperAdmin := by
      simpa [allowedRoles] using hrole
    have hne : (role == 0) = false := by
      rcases hor with h | h <;> simp [h, ShopEditor, SuperAdmin]
    refine ⟨fun hdb => ?_, fun hdb => ?_⟩
    · subst hdb
      have heq : deleteItemHandler role (BodyDecode.decoded req) false items =
          ⟨200, respOK, items.filter (fun i => !(i.item_id == req.item_id)), true⟩ := by
        simp [deleteItemHandler, hne, hrole, hval]
      refine ⟨heq, ?_⟩
      intro i hi
      rw [heq] at hi
      simpa using (List.mem_filter.1 hi).2
    · subst hdb
      simp [deleteItemHandler, hne, hrole, hval]
  · intro h0 body
    subst h0
    simp [deleteItemHandler]
  · intro h0 hnotin body
    have hne : (role == 0) = false := by simpa using h0
    simp [deleteItemHandler, hne, hnotin]

/-- Witness for the amended C5: a ShopEditor deleting item 1 from a
two-item table succeeds with 200 and only item 2 remains; role 5 with an
empty body gets 403 and an unchanged table. -/
theorem deleteItemHandler_spec_witness :
    deleteItemHandler ShopEditor (BodyDecode.decoded ⟨1⟩) false [⟨1⟩, ⟨2⟩] =
      ⟨200, respOK, [⟨2⟩], true⟩ ∧
    deleteItemHandler 5 BodyDecode.emptyBody false [⟨1⟩] =
      ⟨403, respError "access was denied", [⟨1⟩], false⟩ := by
  constructor
  · have h := ((deleteItemHandler_spec ShopEditor ⟨1⟩ false [⟨1⟩, ⟨2⟩]).1
      (by decide) (by decide)).1 rfl
    exact h.1.trans (by decide)
  · exact (deleteItemHandler_spec 5 ⟨1⟩ false [⟨1⟩]).2.2 (by decide) (by decide)
      BodyDecode.emptyBody

/-- C4 counterexample: an empty body sent by an unauthorized role yields
403, not the 400 the claim promises for every empty or undecodable body
(the deleteItem handler checks the role before reading the body). -/
theorem emptyBody_unauthorized_counterexample :
    (deleteItemHandler 5 BodyDecode.emptyBody false []).code = 403 ∧
    (deleteItemHandler 5 BodyDecode.emptyBody false []).code ≠ 400 := by
  decide

/-- C4 (amended): for every empty or undecodable body neither domain
operation runs: the delete handler never invokes the delete and leaves the
table unchanged, and the login handler answers 400 with no credential
check and no output; the delete handler answers 400 provided the caller's
role passed its gate, which runs before the body is read (an unauthorized
caller gets 403, a zero role 500). -/
theorem emptyOrMalformedBody_spec (role : Int) (dbErr : Bool)
    (items : List ShopItem) (users : List UserCred)
    (dbody : BodyDecode DeleteItemRequest) (lbody : BodyDecode LoginRequest)
    (hd : dbody = BodyDecode.emptyBody ∨ dbody = BodyDecode.malformed)
    (hl : lbody = BodyDecode.emptyBody ∨ lbody = BodyDecode.malformed) :
    (deleteItemHandler role dbody dbErr items).deleteInvoked = false ∧
    (deleteItemHandler role dbody dbErr items).items = items ∧
    (role ∈ allowedRoles → (deleteItemHandler role dbody dbErr items).code = 400) ∧
    (logInHandler users lbody).code = 400 ∧
    (logInHandler users lbody).events = [] := by
  have hcode : role ∈ allowedRoles →
      (deleteItemHandler role dbody dbErr items).code = 400 := by
    intro hrole
    have hor : role = ShopEditor ∨ role = SuperAdmin := by
      simpa [allowedRoles] using hrole
    have hne : (role == 0) = false := by
      rcases hor with h | h <;> simp [h, ShopEditor, SuperAdmin]
    rcases hd with h | h <;> subst h <;> simp [deleteItemHandler, hne, hrole]
  have hinv : (deleteItemHandler role dbody dbErr items).deleteInvoked = false ∧
      (deleteItemHandler role dbody dbErr items).items = items := by
    by_cases h0 : (role == 0) = true
    · rcases hd with h | h <;> subst h <;> simp [deleteItemHandler, h0]
    · have h0' : (role == 0) = false := by simpa using h0
      by_cases hmem : role ∈ allowedRoles
      · rcases hd with h | h <;> subst h <;> simp [deleteItemHandler, h0', hmem]
      · rcases hd with h | h <;> subst h <;> simp [deleteItemHandler, h0', hmem]
  have hlog : (logInHandler users lbody).code = 400 ∧
      (logInHandler users lbody).events = [] := by
    rcases hl with h | h <;> subst h <;> simp [logInHandler]
  exact ⟨hinv.1, hinv.2, hcode, hlog.1, hlog.2⟩

/-- Witness for the amended C4: with an authorized role and an empty body
the delete handler answers 400 without deleting, and the login handler
answers 400 on a malformed body with an empty event trace. -/
theorem emptyOrMalformedBody_spec_witness :
    (deleteItemHandler ShopEditor BodyDecode.emptyBody false [⟨1⟩]).deleteInvoked
        = false ∧
    (deleteItemHandler ShopEditor BodyDecode.emptyBody false [⟨1⟩]).code = 400 ∧
    (logInHandler usersEx BodyDecode.malformed).code = 400 ∧
    (logInHandler usersEx BodyDecode.malformed).events = [] := by
  have h := emptyOrMalformedBody_spec ShopEditor false [⟨1⟩] usersEx
    BodyDecode.emptyBody BodyDecode.malformed (Or.inl rfl) (Or.inr rfl)
  exact ⟨h.1, h.2.2.1 (by decide), h.2.2.2.1, h.2.2.2.2⟩

/-- C6 counterexample: with user_id present in the claims but the username
value entirely absent from the context, the handler panics on the dynamic
type assertion instead of answering 500. -/
theorem meHandler_missing_credential_counterexample :
    meHandler ⟨some [("user_id", 1)], none, some 2⟩ = MeResult.panicked := by
  decide

/-- C6 (amended): when the three context values are present with their
expected types, the handler echoes user_id, username and role in an OK
envelope, and answers 500 with an error envelope when the user_id key is
missing from the claims, the username is empty, or the role is zero; but
when a context value itself is absent the handler panics on the dynamic
type assertion rather than answering 500. -/
theorem meHandler_spec (claims : List (String × Int)) (username : String)
    (role : Int) (cred : Option String) (scope : Option Int) :
    (∀ userID, lookupClaim claims "user_id" = some userID → username ≠ "" →
      role ≠ 0 →
      meHandler ⟨some claims, some username, some role⟩ =
        MeResult.response 200 respOK (some ⟨userID, username, role⟩)) ∧
    (lookupClaim claims "user_id" = none →
      meHandler ⟨some claims, cred, scope⟩ =
        MeResult.response 500 (respError "no user id in token claims") none) ∧
    (∀ userID, lookupClaim claims "user_id" = some userID →
      meHandler ⟨some claims, some "", scope⟩ =
        MeResult.response 500 (respError "no username in token") none) ∧
    (∀ userID, lookupClaim claims "user_id" = some userID → username ≠ "" →
      meHandler ⟨some claims, some username, some 0⟩ =
        MeResult.response 500 (respError "no user role in token") none) ∧
    (meHandler ⟨none, cred, scope⟩ = MeResult.panicked) ∧
    (∀ userID, lookupClaim claims "user_id" = some userID →
      meHandler ⟨some claims, none, scope⟩ = MeResult.panicked) ∧
    (∀ userID, lookupClaim claims "user_id" = some userID → username ≠ "" →
      meHandler ⟨some claims, some username, none⟩ = MeResult.panicked) := by
  refine ⟨?_, ?_, ?_, ?_, ?_, ?_, ?_⟩
  · intro userID hlook huser hrole
    have h1 : (username == "") = false := by simpa using huser
    have h2 : (role == 0) = false := by simpa using hrole
    simp [meHandler, hlook, h1, h2]
  · intro hlook
    simp [meHandler, hlook]
  · intro userID hlook
    simp [meHandler, hlook]
  · intro userID hlook huser
    have h1 : (username == "") = false := by simpa using huser
    simp [meHandler, hlook, h1]
  · simp [meHandler]
  · intro userID hlook
    simp [meHandler, hlook]
  · intro userID hlook huser
    have h1 : (username == "") = false := by simpa using huser
    simp [meHandler, hlook, h1]

/-- Witness for the amended C6: a context carrying user_id 4, username bob
and role 2 is echoed back with 200, and the same context without a role
value panics. -/
theorem meHandler_spec_witness :
    meHandler ⟨some [("user_id", 4)], some "bob", some 2⟩ =
      MeResult.response 200 respOK (some ⟨4, "bob", 2⟩) ∧
    meHandler ⟨some [("user_id", 4)], some "bob", none⟩ = MeResult.panicked := by
  constructor
  · exact (meHandler_spec [("user_id", 4)] "bob" 2 none none).1 4
      (by decide) (by decide) (by decide)
  · exact (meHandler_spec [("user_id", 4)] "bob" 2 none none).2.2.2.2.2.2 4
      (by decide) (by decide)
